import Mathlib

/-!
Shallow embedding of the bb_blankboard client-side admin UI scripts:
* `CategoryFilter` — the static category → topic → group cascade used on the
  create/edit forms (source: the unnamed module holding `updateTopics`,
  `updateGroups`, `setupRadioToggle`);
* `StatusToggle` — the optimistic public/private post-status toggle
  (source: the unnamed module holding `applyActiveState`, `updateStatus` and
  the status-btn click handler);
* `CategoryManage` — the admin management page for the category/topic/group
  hierarchy (source: `static/js/category_manage.js`).

DOM elements are modelled as record fields (text content, input values,
visibility flags); fetch responses are passed in explicitly as data, with the
result of `JSON.parse` on the body modelled as an `Option` of the payload
fields the handlers inspect.
-/

/-- JavaScript `x || y` for a string-typed field that may be absent
(`undefined`): an absent field and the empty string are both falsy, so either
falls through to `y`. -/
def jsOrStr (x : Option String) (y : String) : String :=
  match x with
  | none => y
  | some s => if s = "" then y else s

/-- Leading whitespace stripped from a character list; helper for a
structurally recursive model of JavaScript string trimming. -/
def dropWhileWS (cs : List Char) : List Char :=
  match cs with
  | [] => []
  | c :: rest => if c.isWhitespace then dropWhileWS rest else c :: rest

/-- JavaScript `s.trim()`: whitespace stripped from both ends. -/
def jsTrim (s : String) : String :=
  ⟨(dropWhileWS (dropWhileWS s.data).reverse).reverse⟩

namespace CategoryFilter

/-- Entry of the preloaded `window.topics` array. -/
structure Topic where
  id : Int
  name : String
  category_id : Int
deriving Repr, DecidableEq

/-- Entry of the preloaded `window.groups` array. -/
structure GroupItem where
  id : Int
  name : String
  topic_id : Int
deriving Repr, DecidableEq

/-- JavaScript strict equality `a === b` between a number field and the result
of `parseInt`, which may be `NaN` (modelled as `none`); `NaN` is strictly equal
to nothing. -/
def numEq (a : Int) (b : Option Int) : Bool :=
  match b with
  | none => false
  | some v => a == v

/-- JavaScript `parseInt` on the strings that actually occur as select values
in this page: the canonical decimal rendering of an option's integer id, or
the empty string when the select has no options (`parseInt("")` is `NaN`,
modelled as `none`). -/
def parseIntOpt (s : String) : Option Int :=
  match s.data with
  | [] => none
  | cs =>
    if cs.all Char.isDigit then
      some ((cs.foldl (fun n c => n * 10 + (c.toNat - Char.toNat '0')) 0 : Nat) : Int)
    else
      none

/-- The filter expression of `updateTopics`:
`topics.filter(t => t.category_id === selectedCategory)`. -/
def topicsFor (selectedCategory : Option Int) (topics : List Topic) : List Topic :=
  topics.filter (fun t => numEq t.category_id selectedCategory)

/-- The filter expression of `updateGroups`:
`groups.filter(g => g.topic_id === selectedTopic)`. -/
def groupsFor (selectedTopic : Option Int) (groups : List GroupItem) : List GroupItem :=
  groups.filter (fun g => numEq g.topic_id selectedTopic)

/-- Rendered `option` elements of the topic and group selects: each option is
its `value` (the entity id) paired with its `textContent` (the name). -/
structure FilterState where
  topicOptions : List (Int × String)
  groupOptions : List (Int × String)
deriving Repr, DecidableEq

/-- Value of a `select` element given its option list: the browser selects the
first option by default, and a select with no options has value `""`. -/
def selectValue (options : List (Int × String)) : String :=
  match options with
  | [] => ""
  | o :: _ => toString o.1

/-- `updateGroups()`: reads `parseInt(topicSelect.value)`, filters the
preloaded groups by that topic id, and rebuilds the group select's options
from scratch (`groupSelect.innerHTML = ""` then re-append). -/
def updateGroups (groups : List GroupItem) (st : FilterState) : FilterState :=
  let selectedTopic := parseIntOpt (selectValue st.topicOptions)
  let filteredGroups := groupsFor selectedTopic groups
  { st with groupOptions := filteredGroups.map (fun g => (g.id, g.name)) }

/-- `updateTopics()`: reads `parseInt(categorySelect.value)`, filters the
preloaded topics by that category id, rebuilds the topic select's options from
scratch, then unconditionally calls `updateGroups()`. `categoryValue` is
`categorySelect.value` at the time of the change event. -/
def updateTopics (topics : List Topic) (groups : List GroupItem)
    (categoryValue : String) (st : FilterState) : FilterState :=
  let selectedCategory := parseIntOpt categoryValue
  let filteredTopics := topicsFor selectedCategory topics
  let st1 := { st with topicOptions := filteredTopics.map (fun t => (t.id, t.name)) }
  updateGroups groups st1

end CategoryFilter

namespace StatusToggle

/-- Status constants of the toggle module (`STATUS_PUBLIC = 0`,
`STATUS_PRIVATE = 1`). -/
def STATUS_PUBLIC : Int := 0

/-- See `STATUS_PUBLIC`. -/
def STATUS_PRIVATE : Int := 1

/-- One `.status-toggle` element: its post id, the numeric status held in
`dataset.current` (the initial `applyActiveState` call on page load has
already normalised it to a number), and the `is-active` class of each of its
two `.status-btn` children. -/
structure Toggle where
  postId : Int
  current : Int
  publicBtnActive : Bool
  privateBtnActive : Bool
deriving Repr, DecidableEq

/-- `applyActiveState(toggleEl, current)`: toggles `is-active` on each button
according to whether the button's status equals `current`, and stores
`current` back into `toggleEl.dataset.current`. -/
def applyActiveState (t : Toggle) (current : Int) : Toggle :=
  { t with
    publicBtnActive := STATUS_PUBLIC == current
    privateBtnActive := STATUS_PRIVATE == current
    current := current }

/-- A toggle whose button classes agree with its stored current status, as
established by the `applyActiveState` call on page load. -/
def Toggle.consistent (t : Toggle) : Bool :=
  t.publicBtnActive == (STATUS_PUBLIC == t.current) &&
  t.privateBtnActive == (STATUS_PRIVATE == t.current)

/-- Response to the `POST /admin/api/posts/{id}/status` confirmation request:
the HTTP success flag and the `message` field of the parsed failure body
(the handler re-parses the body as JSON only on failure; this embedding
assumes the body parses, since the engine text of a parse exception lies
outside the program). -/
structure StatusResponse where
  ok : Bool
  message : Option String
deriving Repr, DecidableEq

/-- `updateStatus(postId, statusStr)`: on non-success HTTP status, throws
`Error(data.message || "更新に失敗しました")`. Returns the thrown message, or
`none` on success. -/
def updateStatus (resp : StatusResponse) : Option String :=
  if resp.ok then
    none
  else
    some (jsOrStr resp.message "更新に失敗しました")

/-- Observable result of one `.status-btn` click: the final toggle state, the
optimistically applied state recorded just before the request, whether a
request was sent and with which status string, and any `alert`ed message. -/
structure ClickOutcome where
  toggle : Toggle
  optimistic : Toggle
  requestSent : Bool
  sentStatus : Option String
  alertMsg : Option String
deriving Repr, DecidableEq

/-- The `.status-btn` click handler: computes the button's target status from
its `data-status`, returns early when it equals the current status, otherwise
saves the prior status, applies the target optimistically, sends the request,
and on a thrown error reverts to the prior status and alerts the message. -/
def statusBtnClick (t : Toggle) (btnDataStatus : String)
    (resp : StatusResponse) : ClickOutcome :=
  let nextStatus := if btnDataStatus = "public" then STATUS_PUBLIC else STATUS_PRIVATE
  if t.current == nextStatus then
    { toggle := t, optimistic := t, requestSent := false,
      sentStatus := none, alertMsg := none }
  else
    let prev := t.current
    let t1 := applyActiveState t nextStatus
    let statusStr := if nextStatus == STATUS_PUBLIC then "public" else "private"
    match updateStatus resp with
    | none =>
        { toggle := t1, optimistic := t1, requestSent := true,
          sentStatus := some statusStr, alertMsg := none }
    | some errMsg =>
        { toggle := applyActiveState t1 prev, optimistic := t1, requestSent := true,
          sentStatus := some statusStr, alertMsg := some errMsg }

end StatusToggle

namespace CategoryManage

/-- Fields of a parsed JSON response payload that the handlers of
`category_manage.js` inspect; `none` models an absent field (`undefined`). -/
structure Payload where
  status : Option String
  message : Option String
  detail : Option String
deriving Repr, DecidableEq

/-- A completed fetch response as the handlers see it: `res.ok` and the result
of `JSON.parse(await res.text())`, with `none` for a parse failure. -/
structure FetchResponse where
  ok : Bool
  parsed : Option Payload
deriving Repr, DecidableEq

/-- The failure branch of every update/delete handler treats a response as
failed when the body did not parse, the HTTP status is not success, or the
payload's `status` is not the string `"ok"`. -/
def isFailureResp (r : FetchResponse) : Bool :=
  match r.parsed with
  | none => true
  | some d => !r.ok || d.status != some "ok"

/-- Message alerted on a failed update/delete: on a parse failure the generic
fallback, otherwise `data.message || data.detail || generic`. -/
def failureMessage (r : FetchResponse) (generic : String) : String :=
  match r.parsed with
  | none => generic
  | some d => jsOrStr d.message (jsOrStr d.detail generic)

/-- One list row (category, topic and group rows are structurally identical):
the name span's `textContent`, the edit input's `value`, and the `hidden`
class of each of its six elements. -/
structure Row where
  nameText : String
  inputValue : String
  nameHidden : Bool
  editBtnHidden : Bool
  deleteBtnHidden : Bool
  inputHidden : Bool
  saveBtnHidden : Bool
  cancelBtnHidden : Bool
deriving Repr, DecidableEq

/-- A row in its normal display configuration (name, edit and delete visible;
input, save and cancel hidden). -/
def Row.viewing (r : Row) : Bool :=
  !r.nameHidden && !r.editBtnHidden && !r.deleteBtnHidden &&
  r.inputHidden && r.saveBtnHidden && r.cancelBtnHidden

/-- A row in its edit configuration (name, edit and delete hidden; input, save
and cancel visible). -/
def Row.editing (r : Row) : Bool :=
  r.nameHidden && r.editBtnHidden && r.deleteBtnHidden &&
  !r.inputHidden && !r.saveBtnHidden && !r.cancelBtnHidden

/-- The edit-btn click handler (same body for category, topic and group rows):
copies the trimmed name-span text into the edit input, hides the display
elements and shows the edit elements. -/
def editBtnClick (r : Row) : Row :=
  { r with
    inputValue := jsTrim r.nameText
    nameHidden := true
    editBtnHidden := true
    deleteBtnHidden := true
    inputHidden := false
    saveBtnHidden := false
    cancelBtnHidden := false }

/-- The user typing into the row's edit input. -/
def typeInto (r : Row) (s : String) : Row :=
  { r with inputValue := s }

/-- `resetCategoryRow(id)`: hides the edit elements and shows the display
elements again (the input's value is left as it is, merely hidden). -/
def resetCategoryRow (r : Row) : Row :=
  { r with
    inputHidden := true
    saveBtnHidden := true
    cancelBtnHidden := true
    nameHidden := false
    editBtnHidden := false
    deleteBtnHidden := false }

/-- `resetTopicRow(id)`: same body as `resetCategoryRow`. -/
def resetTopicRow (r : Row) : Row :=
  { r with
    inputHidden := true
    saveBtnHidden := true
    cancelBtnHidden := true
    nameHidden := false
    editBtnHidden := false
    deleteBtnHidden := false }

/-- `resetGroupRow(id)`: same body as `resetCategoryRow`. -/
def resetGroupRow (r : Row) : Row :=
  { r with
    inputHidden := true
    saveBtnHidden := true
    cancelBtnHidden := true
    nameHidden := false
    editBtnHidden := false
    deleteBtnHidden := false }

/-- The cancel-btn click handler: `resetCategoryRow(btn.dataset.id)` (and its
topic/group twins do the same through their reset functions). -/
def cancelBtnClick (r : Row) : Row :=
  resetCategoryRow r

/-- Page-level state of the management screen: the module-level selection
variables, the two selection labels, the rendered child lists (id/name of each
row) and the visibility of the two create areas. -/
structure PageState where
  currentCategoryId : Option Int
  currentCategoryName : String
  currentTopicId : Option Int
  currentTopicName : String
  categoryLabel : String
  topicLabel : String
  topicListRows : List (Int × String)
  groupListRows : List (Int × String)
  topicCreateVisible : Bool
  groupCreateVisible : Bool
deriving Repr, DecidableEq

/-- Observable result of an update/delete handler run: the row and page state
after the handler, any `alert`ed message, whether the request was actually
sent, and which follow-up action the success branch triggered
(`location.reload()`, `loadTopics(...)` or `loadGroups(...)`). -/
structure Outcome where
  row : Row
  page : PageState
  alertMsg : Option String
  requestSent : Bool
  reloadPage : Bool
  refetchTopics : Bool
  refetchGroups : Bool
deriving Repr, DecidableEq

/-- Outcome that leaves the row and page untouched and triggers nothing. -/
def Outcome.unchanged (r : Row) (p : PageState) (msg : Option String)
    (sent : Bool) : Outcome :=
  { row := r, page := p, alertMsg := msg, requestSent := sent,
    reloadPage := false, refetchTopics := false, refetchGroups := false }

/-- The save-btn click handler for a category row: validates the trimmed input
is non-empty, posts `category_update`, alerts the generic message on a parse
failure, alerts `message || detail || generic` when `!res.ok` or
`status !== "ok"`, and on success writes the new name into the name span,
resets the row, and — when this row is the selected category — updates the
cached selection name and the selection label. -/
def categorySaveBtnClick (id : Int) (r : Row) (p : PageState)
    (resp : FetchResponse) : Outcome :=
  let name := jsTrim r.inputValue
  if name = "" then
    Outcome.unchanged r p (some "カテゴリ名を入力してください") false
  else
    match resp.parsed with
    | none =>
        Outcome.unchanged r p (some "カテゴリを更新できませんでした。") true
    | some data =>
        if !resp.ok || data.status != some "ok" then
          Outcome.unchanged r p
            (some (jsOrStr data.message
              (jsOrStr data.detail "カテゴリを更新できませんでした。"))) true
        else
          let r1 := resetCategoryRow { r with nameText := name }
          let p1 :=
            if p.currentCategoryId == some id then
              { p with
                currentCategoryName := name
                categoryLabel := "選択中カテゴリ：" ++ name }
            else p
          { row := r1, page := p1, alertMsg := none, requestSent := true,
            reloadPage := false, refetchTopics := false, refetchGroups := false }

/-- The topic-save-btn click handler: same shape as `categorySaveBtnClick`,
posting `topic_update` and updating the topic selection name and label when
the row is the selected topic. -/
def topicSaveBtnClick (id : Int) (r : Row) (p : PageState)
    (resp : FetchResponse) : Outcome :=
  let name := jsTrim r.inputValue
  if name = "" then
    Outcome.unchanged r p (some "トピック名を入力してください") false
  else
    match resp.parsed with
    | none =>
        Outcome.unchanged r p (some "トピックを更新できませんでした。") true
    | some data =>
        if !resp.ok || data.status != some "ok" then
          Outcome.unchanged r p
            (some (jsOrStr data.message
              (jsOrStr data.detail "トピックを更新できませんでした。"))) true
        else
          let r1 := resetTopicRow { r with nameText := name }
          let p1 :=
            if p.currentTopicId == some id then
              { p with
                currentTopicName := name
                topicLabel := "選択中トピック：" ++ name }
            else p
          { row := r1, page := p1, alertMsg := none, requestSent := true,
            reloadPage := false, refetchTopics := false, refetchGroups := false }

/-- The group-save-btn click handler: same shape, posting `group_update`; the
success branch only rewrites the name span and resets the row (groups carry no
selection state). -/
def groupSaveBtnClick (r : Row) (p : PageState)
    (resp : FetchResponse) : Outcome :=
  let name := jsTrim r.inputValue
  if name = "" then
    Outcome.unchanged r p (some "グループ名を入力してください") false
  else
    match resp.parsed with
    | none =>
        Outcome.unchanged r p (some "グループを更新できませんでした。") true
    | some data =>
        if !resp.ok || data.status != some "ok" then
          Outcome.unchanged r p
            (some (jsOrStr data.message
              (jsOrStr data.detail "グループを更新できませんでした。"))) true
        else
          let r1 := resetGroupRow { r with nameText := name }
          Outcome.unchanged r1 p none true

/-- The delete-btn click handler for a category row: asks for confirmation,
posts `category_delete`, alerts the generic message on a parse failure, alerts
`message || detail || generic` on `!res.ok` or `status !== "ok"`, and on
success calls `location.reload()`. -/
def categoryDeleteBtnClick (r : Row) (p : PageState) (confirmed : Bool)
    (resp : FetchResponse) : Outcome :=
  if !confirmed then
    Outcome.unchanged r p none false
  else
    match resp.parsed with
    | none =>
        Outcome.unchanged r p (some "カテゴリを削除できませんでした。") true
    | some data =>
        if !resp.ok || data.status != some "ok" then
          Outcome.unchanged r p
            (some (jsOrStr data.message
              (jsOrStr data.detail "カテゴリを削除できませんでした。"))) true
        else
          { row := r, page := p, alertMsg := none, requestSent := true,
            reloadPage := true, refetchTopics := false, refetchGroups := false }

/-- The topic-delete-btn click handler: same shape, posting `topic_delete`; on
success it re-fetches the selected category's topic list when a category is
selected. -/
def topicDeleteBtnClick (r : Row) (p : PageState) (confirmed : Bool)
    (resp : FetchResponse) : Outcome :=
  if !confirmed then
    Outcome.unchanged r p none false
  else
    match resp.parsed with
    | none =>
        Outcome.unchanged r p (some "トピックを削除できませんでした。") true
    | some data =>
        if !resp.ok || data.status != some "ok" then
          Outcome.unchanged r p
            (some (jsOrStr data.message
              (jsOrStr data.detail "トピックを削除できませんでした。"))) true
        else
          { row := r, page := p, alertMsg := none, requestSent := true,
            reloadPage := false,
            refetchTopics := p.currentCategoryId != none,
            refetchGroups := false }

/-- The group-delete-btn click handler: same shape, posting `group_delete`; on
success it re-fetches the selected topic's group list when a topic is
selected. -/
def groupDeleteBtnClick (r : Row) (p : PageState) (confirmed : Bool)
    (resp : FetchResponse) : Outcome :=
  if !confirmed then
    Outcome.unchanged r p none false
  else
    match resp.parsed with
    | none =>
        Outcome.unchanged r p (some "グループを削除できませんでした。") true
    | some data =>
        if !resp.ok || data.status != some "ok" then
          Outcome.unchanged r p
            (some (jsOrStr data.message
              (jsOrStr data.detail "グループを削除できませんでした。"))) true
        else
          { row := r, page := p, alertMsg := none, requestSent := true,
            reloadPage := false, refetchTopics := false,
            refetchGroups := p.currentTopicId != none }

/-- `loadTopics(categoryId, categoryName)`: stores the selection, clears the
topic selection, updates the category label, shows the topic-create area,
renders the fetched topics as the topic list, clears the group list, resets
the topic label to its placeholder and hides the group-create area.
`fetchedTopics` is the parsed array returned by `/admin/api/topics`. -/
def loadTopics (categoryId : Int) (categoryName : String)
    (fetchedTopics : List (Int × String)) (p : PageState) : PageState :=
  { p with
    currentCategoryId := some categoryId
    currentCategoryName := categoryName
    currentTopicId := none
    currentTopicName := ""
    categoryLabel := "選択中カテゴリ：" ++ categoryName
    topicCreateVisible := true
    topicListRows := fetchedTopics
    groupListRows := []
    topicLabel := "トピックを選択してください"
    groupCreateVisible := false }

/-- Observable result of a create handler run: any `alert`ed message, whether
the request was sent, whether the page is reloaded, whether the input field
was cleared, whether the child list was re-fetched (`loadTopics`/`loadGroups`),
and whether an exception escaped the handler (`res.json()` throwing on a
non-JSON body is not caught in the create handlers). -/
structure CreateOutcome where
  alertMsg : Option String
  requestSent : Bool
  reloadPage : Bool
  inputCleared : Bool
  refetch : Bool
  exception : Bool
deriving Repr, DecidableEq

/-- CreateOutcome that only alerts. -/
def CreateOutcome.blocked (msg : String) : CreateOutcome :=
  { alertMsg := some msg, requestSent := false, reloadPage := false,
    inputCleared := false, refetch := false, exception := false }

/-- `handleCreateCategory()`: validates the trimmed input is non-empty, posts
`category_create`, and reloads the page; the response is never inspected (the
`fetch` is awaited and its result discarded). -/
def handleCreateCategory (inputValue : String) (resp : FetchResponse) :
    CreateOutcome :=
  let name := jsTrim inputValue
  if name = "" then
    CreateOutcome.blocked "カテゴリ名は必須です"
  else
    let _ := resp
    { alertMsg := none, requestSent := true, reloadPage := true,
      inputCleared := false, refetch := false, exception := false }

/-- `handleCreateTopic()`: blocks when no category is selected or the trimmed
input is empty; otherwise posts `topic_create` and parses the body with
`res.json()` (a non-JSON body throws out of the handler). When
`json.status === "ok"` it clears the input and re-invokes `loadTopics`;
otherwise it alerts `json.message || generic`. `res.ok` is never consulted. -/
def handleCreateTopic (currentCategoryId : Option Int) (inputValue : String)
    (resp : FetchResponse) : CreateOutcome :=
  if currentCategoryId == none then
    CreateOutcome.blocked "先にカテゴリを選択してください"
  else
    let name := jsTrim inputValue
    if name = "" then
      CreateOutcome.blocked "トピック名を入力してください"
    else
      match resp.parsed with
      | none =>
          { alertMsg := none, requestSent := true, reloadPage := false,
            inputCleared := false, refetch := false, exception := true }
      | some json =>
          if json.status == some "ok" then
            { alertMsg := none, requestSent := true, reloadPage := false,
              inputCleared := true, refetch := true, exception := false }
          else
            { alertMsg := some (jsOrStr json.message "トピックを追加できませんでした。"),
              requestSent := true, reloadPage := false,
              inputCleared := false, refetch := false, exception := false }

/-- `handleCreateGroup()`: same shape as `handleCreateTopic`, guarded by the
topic selection, posting `group_create` and re-invoking `loadGroups` on
`json.status === "ok"`. `res.ok` is never consulted. -/
def handleCreateGroup (currentTopicId : Option Int) (inputValue : String)
    (resp : FetchResponse) : CreateOutcome :=
  if currentTopicId == none then
    CreateOutcome.blocked "先にトピックを選択してください"
  else
    let name := jsTrim inputValue
    if name = "" then
      CreateOutcome.blocked "グループ名を入力してください"
    else
      match resp.parsed with
      | none =>
          { alertMsg := none, requestSent := true, reloadPage := false,
            inputCleared := false, refetch := false, exception := true }
      | some json =>
          if json.status == some "ok" then
            { alertMsg := none, requestSent := true, reloadPage := false,
              inputCleared := true, refetch := true, exception := false }
          else
            { alertMsg := some (jsOrStr json.message "グループを追加できませんでした。"),
              requestSent := true, reloadPage := false,
              inputCleared := false, refetch := false, exception := false }

/-- Sample row used to instantiate theorems: in edit mode with a pending
rename from 旧名 to 新名. -/
def sampleRow : Row :=
  { nameText := "旧名", inputValue := "新名", nameHidden := true,
    editBtnHidden := true, deleteBtnHidden := true, inputHidden := false,
    saveBtnHidden := false, cancelBtnHidden := false }

/-- Sample row in its normal display configuration. -/
def sampleViewRow : Row :=
  { nameText := "カテゴリA", inputValue := "", nameHidden := false,
    editBtnHidden := false, deleteBtnHidden := false, inputHidden := true,
    saveBtnHidden := true, cancelBtnHidden := true }

/-- Sample page state with category 1 and topic 10 selected. -/
def samplePage : PageState :=
  { currentCategoryId := some 1, currentCategoryName := "旧名",
    currentTopicId := some 10, currentTopicName := "旧名",
    categoryLabel := "選択中カテゴリ：旧名", topicLabel := "選択中トピック：旧名",
    topicListRows := [(10, "旧名")], groupListRows := [(20, "G1")],
    topicCreateVisible := true, groupCreateVisible := true }

/-- Sample application-level failure response: HTTP success but
`status = "error"` with a `message`. -/
def sampleFailResp : FetchResponse :=
  { ok := true,
    parsed := some { status := some "error", message := some "in use", detail := none } }

/-- Sample success response: HTTP success and `status = "ok"`. -/
def sampleOkResp : FetchResponse :=
  { ok := true,
    parsed := some { status := some "ok", message := none, detail := none } }

/-- Sample non-success HTTP response whose body nevertheless parses to
`status = "ok"`. -/
def badCreateResp : FetchResponse :=
  { ok := false,
    parsed := some { status := some "ok", message := none, detail := none } }

/-- Sample failure response carrying only a `detail` field. -/
def detailCreateResp : FetchResponse :=
  { ok := true,
    parsed := some { status := some "error", message := none, detail := some "duplicate name" } }

end CategoryManage

open CategoryFilter StatusToggle CategoryManage

/-- Claim C2: `loadTopics(id, name)` stores `(id, name)` as the current
category, resets the current topic to `(null, "")`, clears the rendered group
list and hides the group-create area — selecting a category always
invalidates the topic and group selection state. -/
theorem loadTopics_clears_child_selection (categoryId : Int)
    (categoryName : String) (fetchedTopics : List (Int × String))
    (p : PageState) :
    (loadTopics categoryId categoryName fetchedTopics p).currentCategoryId = some categoryId ∧
    (loadTopics categoryId categoryName fetchedTopics p).currentCategoryName = categoryName ∧
    (loadTopics categoryId categoryName fetchedTopics p).currentTopicId = none ∧
    (loadTopics categoryId categoryName fetchedTopics p).currentTopicName = "" ∧
    (loadTopics categoryId categoryName fetchedTopics p).groupListRows = [] ∧
    (loadTopics categoryId categoryName fetchedTopics p).groupCreateVisible = false :=
  ⟨rfl, rfl, rfl, rfl, rfl, rfl⟩

/-- Claim C4: clicking the status button whose target state equals the
toggle's current state is a no-op: no request is sent and the toggle (active
buttons and stored current status) is unchanged. -/
theorem statusToggle_same_state_noop (t : Toggle) (b : String)
    (resp : StatusResponse)
    (h : (if b = "public" then STATUS_PUBLIC else STATUS_PRIVATE) = t.current) :
    statusBtnClick t b resp =
      { toggle := t, optimistic := t, requestSent := false,
        sentStatus := none, alertMsg := none } := by
  simp only [statusBtnClick, h, beq_self_eq_true, if_true]

/-- Witness for `statusToggle_same_state_noop` at a concrete public post. -/
theorem statusToggle_same_state_noop_witness :
    statusBtnClick ⟨5, 0, true, false⟩ "public" ⟨false, none⟩ =
      { toggle := ⟨5, 0, true, false⟩, optimistic := ⟨5, 0, true, false⟩,
        requestSent := false, sentStatus := none, alertMsg := none } :=
  statusToggle_same_state_noop ⟨5, 0, true, false⟩ "public" ⟨false, none⟩ (by decide)

/-- Claim C5: the static hierarchy filter selects exactly the topics whose
`category_id` strictly equals the selected category id, and exactly the
groups whose `topic_id` equals the selected topic id, as an order-preserving
sublist of the preloaded arrays (the filter functions are pure: no fetch). -/
theorem staticFilter_exact_and_ordered (c : Int) (ts : List Topic)
    (ti : Int) (gs : List GroupItem) :
    (∀ t : Topic, t ∈ topicsFor (some c) ts ↔ t ∈ ts ∧ t.category_id = c) ∧
    List.Sublist (topicsFor (some c) ts) ts ∧
    (∀ g : GroupItem, g ∈ groupsFor (some ti) gs ↔ g ∈ gs ∧ g.topic_id = ti) ∧
    List.Sublist (groupsFor (some ti) gs) gs := by
  refine ⟨fun t => ?_, List.filter_sublist ts, fun g => ?_, List.filter_sublist gs⟩ <;>
    simp [topicsFor, groupsFor, numEq, List.mem_filter]

/-- Claim C8: category creation with a non-empty trimmed name posts and then
unconditionally reloads the page: the outcome does not depend on the response
at all, no message is shown, and the reload happens on any response. -/
theorem createCategory_always_reloads (v : String)
    (resp resp' : FetchResponse) (h : jsTrim v ≠ "") :
    handleCreateCategory v resp = handleCreateCategory v resp' ∧
    (handleCreateCategory v resp).reloadPage = true ∧
    (handleCreateCategory v resp).requestSent = true ∧
    (handleCreateCategory v resp).alertMsg = none := by
  simp [handleCreateCategory, h]

/-- Witness for `createCategory_always_reloads`: a success and a failure
response produce the identical reloading outcome. -/
theorem createCategory_always_reloads_witness :
    handleCreateCategory "News" sampleOkResp = handleCreateCategory "News" sampleFailResp ∧
    (handleCreateCategory "News" sampleOkResp).reloadPage = true ∧
    (handleCreateCategory "News" sampleOkResp).requestSent = true ∧
    (handleCreateCategory "News" sampleOkResp).alertMsg = none :=
  createCategory_always_reloads "News" sampleOkResp sampleFailResp (by decide)

/-- Claim C9: from a row in viewing state, an edit click copies the displayed
name into the edit field and switches the row to the editing configuration;
a cancel click after arbitrary typing restores the display configuration with
the displayed name unchanged, and a later edit click repopulates the field
from the displayed name, so the typed contents are discarded. -/
theorem rowEdit_cancel_roundtrip (r : Row) (s : String) (h : r.viewing = true) :
    (editBtnClick r).editing = true ∧
    (editBtnClick r).inputValue = jsTrim r.nameText ∧
    (editBtnClick r).nameText = r.nameText ∧
    (cancelBtnClick (typeInto (editBtnClick r) s)).viewing = true ∧
    (cancelBtnClick (typeInto (editBtnClick r) s)).nameText = r.nameText ∧
    (editBtnClick (cancelBtnClick (typeInto (editBtnClick r) s))).inputValue = jsTrim r.nameText := by
  simp [editBtnClick, cancelBtnClick, resetCategoryRow, typeInto,
    Row.editing, Row.viewing]

/-- Witness for `rowEdit_cancel_roundtrip` on a concrete viewing row. -/
theorem rowEdit_cancel_roundtrip_witness :
    (editBtnClick sampleViewRow).editing = true ∧
    (editBtnClick sampleViewRow).inputValue = jsTrim sampleViewRow.nameText ∧
    (editBtnClick sampleViewRow).nameText = sampleViewRow.nameText ∧
    (cancelBtnClick (typeInto (editBtnClick sampleViewRow) "下書き")).viewing = true ∧
    (cancelBtnClick (typeInto (editBtnClick sampleViewRow) "下書き")).nameText = sampleViewRow.nameText ∧
    (editBtnClick (cancelBtnClick (typeInto (editBtnClick sampleViewRow) "下書き"))).inputValue = jsTrim sampleViewRow.nameText :=
  rowEdit_cancel_roundtrip sampleViewRow "下書き" (by decide)

/-- Claim C10: the category-change handler always chains into the
group-change handler; when the selected category has no topics the rebuilt
topic select has no options, its value parses to `NaN`, the group filter
matches nothing, and the group select ends with zero options whatever group
options were rendered before. -/
theorem categoryChange_no_stale_groups (topics : List Topic)
    (groups : List GroupItem) (categoryValue : String) (st st' : FilterState)
    (h : topicsFor (parseIntOpt categoryValue) topics = []) :
    (updateTopics topics groups categoryValue st).topicOptions = [] ∧
    (updateTopics topics groups categoryValue st').groupOptions = [] := by
  have hp : parseIntOpt "" = none := rfl
  refine ⟨?_, ?_⟩
  · simp [updateTopics, updateGroups, h]
  · simp only [updateTopics, updateGroups, h, List.map_nil, selectValue, hp]
    simp [groupsFor, numEq]

/-- Claim C1: on every category/topic/group update or delete whose response
fails to parse as JSON, has a non-success HTTP status, or carries a `status`
other than `"ok"`, the handler leaves the row and the page state untouched,
triggers no reload or re-fetch, and alerts the payload `message`, else the
payload `detail`, else the generic fallback. -/
theorem updateDelete_failure_preserves_state (id : Int) (r : Row)
    (p : PageState) (resp : FetchResponse)
    (hname : jsTrim r.inputValue ≠ "") (hfail : isFailureResp resp = true) :
    categorySaveBtnClick id r p resp =
      Outcome.unchanged r p (some (failureMessage resp "カテゴリを更新できませんでした。")) true ∧
    topicSaveBtnClick id r p resp =
      Outcome.unchanged r p (some (failureMessage resp "トピックを更新できませんでした。")) true ∧
    groupSaveBtnClick r p resp =
      Outcome.unchanged r p (some (failureMessage resp "グループを更新できませんでした。")) true ∧
    categoryDeleteBtnClick r p true resp =
      Outcome.unchanged r p (some (failureMessage resp "カテゴリを削除できませんでした。")) true ∧
    topicDeleteBtnClick r p true resp =
      Outcome.unchanged r p (some (failureMessage resp "トピックを削除できませんでした。")) true ∧
    groupDeleteBtnClick r p true resp =
      Outcome.unchanged r p (some (failureMessage resp "グループを削除できませんでした。")) true := by
  rcases resp with ⟨ok, parsed⟩
  cases parsed with
  | none =>
      simp [categorySaveBtnClick, topicSaveBtnClick, groupSaveBtnClick,
        categoryDeleteBtnClick, topicDeleteBtnClick, groupDeleteBtnClick,
        failureMessage, hname]
  | some d =>
      simp only [isFailureResp] at hfail
      simp [categorySaveBtnClick, topicSaveBtnClick, groupSaveBtnClick,
        categoryDeleteBtnClick, topicDeleteBtnClick, groupDeleteBtnClick,
        failureMessage, hname, hfail]

/-- Witness for `updateDelete_failure_preserves_state` at an HTTP-successful
response whose payload reports `status:"error"` with a message. -/
theorem updateDelete_failure_preserves_state_witness :
    categorySaveBtnClick 1 sampleRow samplePage sampleFailResp =
      Outcome.unchanged sampleRow samplePage
        (some (failureMessage sampleFailResp "カテゴリを更新できませんでした。")) true ∧
    topicSaveBtnClick 1 sampleRow samplePage sampleFailResp =
      Outcome.unchanged sampleRow samplePage
        (some (failureMessage sampleFailResp "トピックを更新できませんでした。")) true ∧
    groupSaveBtnClick sampleRow samplePage sampleFailResp =
      Outcome.unchanged sampleRow samplePage
        (some (failureMessage sampleFailResp "グループを更新できませんでした。")) true ∧
    categoryDeleteBtnClick sampleRow samplePage true sampleFailResp =
      Outcome.unchanged sampleRow samplePage
        (some (failureMessage sampleFailResp "カテゴリを削除できませんでした。")) true ∧
    topicDeleteBtnClick sampleRow samplePage true sampleFailResp =
      Outcome.unchanged sampleRow samplePage
        (some (failureMessage sampleFailResp "トピックを削除できませんでした。")) true ∧
    groupDeleteBtnClick sampleRow samplePage true sampleFailResp =
      Outcome.unchanged sampleRow samplePage
        (some (failureMessage sampleFailResp "グループを削除できませんでした。")) true :=
  updateDelete_failure_preserves_state 1 sampleRow samplePage sampleFailResp
    (by decide) (by decide)

/-- Re-applying the saved prior status restores a consistent toggle
exactly. -/
theorem applyActiveState_restore (t : Toggle) (s : Int)
    (hc : t.consistent = true) :
    applyActiveState (applyActiveState t s) t.current = t := by
  rcases t with ⟨pid, cur, pub, priv⟩
  simp only [Toggle.consistent, Bool.and_eq_true, beq_iff_eq] at hc
  simp [applyActiveState, hc.1, hc.2]

/-- Claim C3: a status-toggle click whose target differs from the current
state first applies the target state optimistically, sends the corresponding
status string, and on a non-success HTTP response reverts the toggle to its
prior state and alerts the server's `message` (or the generic fallback). -/
theorem statusToggle_failure_reverts (t : Toggle) (b : String)
    (resp : StatusResponse) (hc : t.consistent = true)
    (hne : (if b = "public" then STATUS_PUBLIC else STATUS_PRIVATE) ≠ t.current)
    (hfail : resp.ok = false) :
    (statusBtnClick t b resp).optimistic =
      applyActiveState t (if b = "public" then STATUS_PUBLIC else STATUS_PRIVATE) ∧
    (statusBtnClick t b resp).requestSent = true ∧
    (statusBtnClick t b resp).sentStatus =
      some (if b = "public" then "public" else "private") ∧
    (statusBtnClick t b resp).toggle = t ∧
    (statusBtnClick t b resp).alertMsg =
      some (jsOrStr resp.message "更新に失敗しました") := by
  have hcur : (t.current == (if b = "public" then STATUS_PUBLIC else STATUS_PRIVATE)) = false := by
    simp only [beq_eq_false_iff_ne, ne_eq]
    exact fun h2 => hne h2.symm
  have hupd : updateStatus resp = some (jsOrStr resp.message "更新に失敗しました") := by
    simp [updateStatus, hfail]
  refine ⟨?_, ?_, ?_, ?_, ?_⟩
  · simp [statusBtnClick, hcur, hupd]
  · simp [statusBtnClick, hcur, hupd]
  · by_cases hb : b = "public" <;>
      simp [hb, STATUS_PUBLIC, STATUS_PRIVATE] at hcur <;>
      simp [statusBtnClick, hcur, hupd, hb, STATUS_PUBLIC, STATUS_PRIVATE]
  · have h4 : (statusBtnClick t b resp).toggle =
        applyActiveState
          (applyActiveState t (if b = "public" then STATUS_PUBLIC else STATUS_PRIVATE))
          t.current := by
      simp [statusBtnClick, hcur, hupd]
    rw [h4]
    exact applyActiveState_restore t _ hc
  · simp [statusBtnClick, hcur, hupd]

/-- Witness for `statusToggle_failure_reverts`: post 5 currently public,
clicking the private button with a failing confirmation. -/
theorem statusToggle_failure_reverts_witness :
    (statusBtnClick ⟨5, 0, true, false⟩ "private" ⟨false, none⟩).optimistic =
      applyActiveState ⟨5, 0, true, false⟩
        (if "private" = "public" then STATUS_PUBLIC else STATUS_PRIVATE) ∧
    (statusBtnClick ⟨5, 0, true, false⟩ "private" ⟨false, none⟩).requestSent = true ∧
    (statusBtnClick ⟨5, 0, true, false⟩ "private" ⟨false, none⟩).sentStatus =
      some (if "private" = "public" then "public" else "private") ∧
    (statusBtnClick ⟨5, 0, true, false⟩ "private" ⟨false, none⟩).toggle = ⟨5, 0, true, false⟩ ∧
    (statusBtnClick ⟨5, 0, true, false⟩ "private" ⟨false, none⟩).alertMsg =
      some (jsOrStr none "更新に失敗しました") :=
  statusToggle_failure_reverts ⟨5, 0, true, false⟩ "private" ⟨false, none⟩
    (by decide) (by decide) rfl

/-- Claim C6: a category/topic/group update with a non-empty trimmed name and
a successful response (HTTP success, payload `status = "ok"`) writes the
submitted name into the displayed label, returns the row to the viewing
configuration without an alert, and — when the row is the currently selected
category or topic — updates the cached selection name and the selection
label to the new name. -/
theorem update_success_applies_name (id : Int) (r : Row) (p : PageState)
    (resp : FetchResponse) (d : Payload)
    (hname : jsTrim r.inputValue ≠ "") (hok : resp.ok = true)
    (hp : resp.parsed = some d) (hs : d.status = some "ok") :
    ((categorySaveBtnClick id r p resp).row.nameText = jsTrim r.inputValue ∧
     (categorySaveBtnClick id r p resp).row.viewing = true ∧
     (categorySaveBtnClick id r p resp).alertMsg = none) ∧
    (p.currentCategoryId = some id →
      (categorySaveBtnClick id r p resp).page.currentCategoryName = jsTrim r.inputValue ∧
      (categorySaveBtnClick id r p resp).page.categoryLabel =
        "選択中カテゴリ：" ++ jsTrim r.inputValue) ∧
    ((topicSaveBtnClick id r p resp).row.nameText = jsTrim r.inputValue ∧
     (topicSaveBtnClick id r p resp).row.viewing = true ∧
     (topicSaveBtnClick id r p resp).alertMsg = none) ∧
    (p.currentTopicId = some id →
      (topicSaveBtnClick id r p resp).page.currentTopicName = jsTrim r.inputValue ∧
      (topicSaveBtnClick id r p resp).page.topicLabel =
        "選択中トピック：" ++ jsTrim r.inputValue) ∧
    ((groupSaveBtnClick r p resp).row.nameText = jsTrim r.inputValue ∧
     (groupSaveBtnClick r p resp).row.viewing = true ∧
     (groupSaveBtnClick r p resp).alertMsg = none) := by
  have hcond : (!resp.ok || d.status != some "ok") = false := by
    rw [hok, hs]
    rfl
  refine ⟨⟨?_, ?_, ?_⟩, fun hsel => ⟨?_, ?_⟩, ⟨?_, ?_, ?_⟩, fun hsel => ⟨?_, ?_⟩, ?_, ?_, ?_⟩ <;>
    simp [categorySaveBtnClick, topicSaveBtnClick, groupSaveBtnClick, hp,
      hname, hcond, resetCategoryRow, resetTopicRow, resetGroupRow,
      Row.viewing, Outcome.unchanged, *]

/-- Witness for `update_success_applies_name`: renaming the selected category
(id 1) with a successful response. -/
theorem update_success_applies_name_witness :
    ((categorySaveBtnClick 1 sampleRow samplePage sampleOkResp).row.nameText = jsTrim sampleRow.inputValue ∧
     (categorySaveBtnClick 1 sampleRow samplePage sampleOkResp).row.viewing = true ∧
     (categorySaveBtnClick 1 sampleRow samplePage sampleOkResp).alertMsg = none) ∧
    (samplePage.currentCategoryId = some 1 →
      (categorySaveBtnClick 1 sampleRow samplePage sampleOkResp).page.currentCategoryName = jsTrim sampleRow.inputValue ∧
      (categorySaveBtnClick 1 sampleRow samplePage sampleOkResp).page.categoryLabel =
        "選択中カテゴリ：" ++ jsTrim sampleRow.inputValue) ∧
    ((topicSaveBtnClick 1 sampleRow samplePage sampleOkResp).row.nameText = jsTrim sampleRow.inputValue ∧
     (topicSaveBtnClick 1 sampleRow samplePage sampleOkResp).row.viewing = true ∧
     (topicSaveBtnClick 1 sampleRow samplePage sampleOkResp).alertMsg = none) ∧
    (samplePage.currentTopicId = some 1 →
      (topicSaveBtnClick 1 sampleRow samplePage sampleOkResp).page.currentTopicName = jsTrim sampleRow.inputValue ∧
      (topicSaveBtnClick 1 sampleRow samplePage sampleOkResp).page.topicLabel =
        "選択中トピック：" ++ jsTrim sampleRow.inputValue) ∧
    ((groupSaveBtnClick sampleRow samplePage sampleOkResp).row.nameText = jsTrim sampleRow.inputValue ∧
     (groupSaveBtnClick sampleRow samplePage sampleOkResp).row.viewing = true ∧
     (groupSaveBtnClick sampleRow samplePage sampleOkResp).alertMsg = none) :=
  update_success_applies_name 1 sampleRow samplePage sampleOkResp
    ⟨some "ok", none, none⟩ (by decide) rfl rfl rfl

/-- Counterexample to claim C7 as stated: the create handlers never inspect
the HTTP status, so a non-success HTTP response whose body says
`status:"ok"` is treated as a success (input cleared, list re-fetched, no
error surfaced), and a failure body carrying only a `detail` field alerts the
generic message instead of the detail. -/
theorem create_ignores_httpStatus_and_detail :
    (handleCreateTopic (some 1) "T1" badCreateResp).alertMsg = none ∧
    (handleCreateTopic (some 1) "T1" badCreateResp).refetch = true ∧
    (handleCreateTopic (some 1) "T1" badCreateResp).inputCleared = true ∧
    (handleCreateGroup (some 10) "G1" badCreateResp).alertMsg = none ∧
    (handleCreateGroup (some 10) "G1" badCreateResp).refetch = true ∧
    (handleCreateTopic (some 1) "T1" detailCreateResp).alertMsg =
      some "トピックを追加できませんでした。" ∧
    (handleCreateGroup (some 10) "G1" detailCreateResp).alertMsg =
      some "グループを追加できませんでした。" := by
  decide

/-- Claim C7 amended: the topic/group create handlers inspect only the parsed
body; when its `status` is not `"ok"` the operation is not treated as a
success and the alert carries the body's `message` (when non-empty), else the
generic fallback; the HTTP status and the `detail` field play no part. -/
theorem create_status_error_alerts (cid tid : Int) (v : String)
    (resp : FetchResponse) (j : Payload) (hv : jsTrim v ≠ "")
    (hp : resp.parsed = some j) (hs : ¬j.status = some "ok") :
    handleCreateTopic (some cid) v resp =
      { alertMsg := some (jsOrStr j.message "トピックを追加できませんでした。"),
        requestSent := true, reloadPage := false, inputCleared := false,
        refetch := false, exception := false } ∧
    handleCreateGroup (some tid) v resp =
      { alertMsg := some (jsOrStr j.message "グループを追加できませんでした。"),
        requestSent := true, reloadPage := false, inputCleared := false,
        refetch := false, exception := false } := by
  constructor <;>
    simp [handleCreateTopic, handleCreateGroup, hp, hv, hs]

/-- Witness for `create_status_error_alerts` at a `status:"error"` body with
a message. -/
theorem create_status_error_alerts_witness :
    handleCreateTopic (some 1) "T2" sampleFailResp =
      { alertMsg := some (jsOrStr (some "in use") "トピックを追加できませんでした。"),
        requestSent := true, reloadPage := false, inputCleared := false,
        refetch := false, exception := false } ∧
    handleCreateGroup (some 10) "T2" sampleFailResp =
      { alertMsg := some (jsOrStr (some "in use") "グループを追加できませんでした。"),
        requestSent := true, reloadPage := false, inputCleared := false,
        refetch := false, exception := false } :=
  create_status_error_alerts 1 10 "T2" sampleFailResp
    ⟨some "error", some "in use", none⟩ (by decide) rfl (by decide)

/-- Witness for `categoryChange_no_stale_groups`: selecting category 2, which
owns no topics, empties both selects even from a state with stale options. -/
theorem categoryChange_no_stale_groups_witness :
    (updateTopics [⟨10, "T1", 1⟩] [⟨20, "G1", 10⟩] "2"
      ⟨[(10, "T1")], [(20, "G1")]⟩).topicOptions = [] ∧
    (updateTopics [⟨10, "T1", 1⟩] [⟨20, "G1", 10⟩] "2"
      ⟨[(10, "T1")], [(20, "G1")]⟩).groupOptions = [] :=
  categoryChange_no_stale_groups [⟨10, "T1", 1⟩] [⟨20, "G1", 10⟩] "2"
    ⟨[(10, "T1")], [(20, "G1")]⟩ ⟨[(10, "T1")], [(20, "G1")]⟩ (by decide)
